import Mathlib

/-!
Shallow embedding of the go-story data-access layer (package `data` plus its
callers): filter inputs, the SQL predicate fragments each query builds, the
order-clause builders, pagination, the batch relation loader's error
propagation, the related-posts UNION query, unique-key lookups, the cache
read/write flow and the resized-image URL builder.  Field and function names
follow the Go source.
-/

namespace GoStory

/-- `StringFilter` from the source: `Equals *string`, `In []string`,
`Not *StringFilter` (recursive, hence an inductive). -/
inductive StringFilter where
  | mk (equals : Option String) (inList : List String) (not : Option StringFilter)

def StringFilter.equals : StringFilter → Option String
  | .mk e _ _ => e

def StringFilter.inList : StringFilter → List String
  | .mk _ i _ => i

def StringFilter.notF : StringFilter → Option StringFilter
  | .mk _ _ n => n

/-- Convenience: the filter `{Equals: &s}` built by `ptrString` call sites. -/
def StringFilter.eqOnly (s : String) : StringFilter := .mk (some s) [] none

/-- `BooleanFilter` from the source. -/
structure BooleanFilter where
  equals : Option Bool
deriving DecidableEq

/-- `DateTimeNullableFilter` from the source: `Equals *string`,
`Not *DateTimeNullableFilter`. -/
inductive DateTimeNullableFilter where
  | mk (equals : Option String) (not : Option DateTimeNullableFilter)

def DateTimeNullableFilter.equals : DateTimeNullableFilter → Option String
  | .mk e _ => e

def DateTimeNullableFilter.notF : DateTimeNullableFilter → Option DateTimeNullableFilter
  | .mk _ n => n

/-- `SectionWhereInput` from the source. -/
structure SectionWhereInput where
  slug : Option StringFilter := none
  state : Option StringFilter := none

/-- `SectionManyRelationFilter` from the source (`Some *SectionWhereInput`). -/
structure SectionManyRelationFilter where
  someF : Option SectionWhereInput := none

/-- `CategoryWhereInput` from the source. -/
structure CategoryWhereInput where
  slug : Option StringFilter := none
  state : Option StringFilter := none
  isMemberOnly : Option BooleanFilter := none

/-- `CategoryManyRelationFilter` from the source. -/
structure CategoryManyRelationFilter where
  someF : Option CategoryWhereInput := none

/-- `PartnerWhereInput` from the source. -/
structure PartnerWhereInput where
  slug : Option StringFilter := none

/-- `IDFilter` from the source. -/
structure IDFilter where
  equals : Option String := none
deriving DecidableEq

/-- `PostTopicsWhereInput` from the source. -/
structure PostTopicsWhereInput where
  id : Option IDFilter := none

/-- `PostWhereInput` from the source. -/
structure PostWhereInput where
  slug : Option StringFilter := none
  sections : Option SectionManyRelationFilter := none
  categories : Option CategoryManyRelationFilter := none
  state : Option StringFilter := none
  isAdult : Option BooleanFilter := none
  isMember : Option BooleanFilter := none
  isFeatured : Option BooleanFilter := none
  topics : Option PostTopicsWhereInput := none

/-- `PostWhereUniqueInput` from the source. -/
structure PostWhereUniqueInput where
  id : Option String := none
  slug : Option String := none
deriving DecidableEq

/-- `ExternalWhereInput` from the source. -/
structure ExternalWhereInput where
  slug : Option StringFilter := none
  state : Option StringFilter := none
  partner : Option PartnerWhereInput := none
  publishedDate : Option DateTimeNullableFilter := none

/-- `TopicWhereInput` from the source. -/
structure TopicWhereInput where
  slug : Option StringFilter := none
  name : Option StringFilter := none
  state : Option StringFilter := none
  isFeatured : Option BooleanFilter := none
  typeF : Option StringFilter := none
  style : Option StringFilter := none

/-- `TopicWhereUniqueInput` from the source. -/
structure TopicWhereUniqueInput where
  id : Option String := none
  name : Option String := none
  slug : Option String := none
deriving DecidableEq

/-- `OrderRule` from the source. -/
structure OrderRule where
  field : String
  direction : String
deriving DecidableEq

/-- One SQL predicate fragment as appended to `conds` in the source.  Each
constructor corresponds to one `conds = append(conds, ...)` site together
with the positional argument(s) pushed onto `args` there:
`eqS f v` is `f = $n` with arg `v`; `anyS f vs` is `f = ANY($n)` with arg
`vs`; `eqB f b` is `f = $n` with boolean arg `b`; `neS f v` is `f <> $n`;
`notNull f` is `f IS NOT NULL` (no arg); `existsSections`/`existsCategories`
are the `EXISTS (SELECT 1 FROM ...)` subqueries with their optional inner
equality arguments. -/
inductive Cond where
  | eqS (field : String) (value : String)
  | anyS (field : String) (values : List String)
  | eqB (field : String) (value : Bool)
  | neS (field : String) (value : String)
  | notNull (field : String)
  | existsSections (slug : Option String) (state : Option String)
  | existsCategories (slug : Option String) (state : Option String)
      (isMemberOnly : Option Bool)
deriving DecidableEq

/-- The closure `buildStringFilter` used by the list queries (`QueryPosts`,
`QueryTopics`): emits the `Equals` condition then the `In` condition. -/
def buildStringFilter (field : String) : Option StringFilter → List Cond
  | none => []
  | some f =>
    (match f.equals with | some v => [Cond.eqS field v] | none => [])
      ++ (if f.inList.length > 0 then [Cond.anyS field f.inList] else [])

/-- The closure `buildStringFilter` used by the count queries
(`QueryPostsCount`, `QueryExternalsCount`, `QueryTopicsCount`) and by
`QueryExternals`: emits only the `Equals` condition. -/
def buildStringFilterEq (field : String) : Option StringFilter → List Cond
  | none => []
  | some f =>
    match f.equals with | some v => [Cond.eqS field v] | none => []

/-- The `where.IsAdult != nil && where.IsAdult.Equals != nil` pattern. -/
def buildBoolFilter (field : String) : Option BooleanFilter → List Cond
  | none => []
  | some f =>
    match f.equals with | some v => [Cond.eqB field v] | none => []

/-- The `where.Sections.Some` `EXISTS` subquery of `QueryPosts` /
`QueryPostsCount` (inner `slug`/`state` equalities added when present). -/
def buildSectionsCond : Option SectionManyRelationFilter → List Cond
  | none => []
  | some f =>
    match f.someF with
    | none => []
    | some s =>
      [Cond.existsSections (s.slug.bind (·.equals)) (s.state.bind (·.equals))]

/-- The `where.Categories.Some` `EXISTS` subquery of `QueryPosts` /
`QueryPostsCount`. -/
def buildCategoriesCond : Option CategoryManyRelationFilter → List Cond
  | none => []
  | some f =>
    match f.someF with
    | none => []
    | some c =>
      [Cond.existsCategories (c.slug.bind (·.equals)) (c.state.bind (·.equals))
        (c.isMemberOnly.bind (·.equals))]

/-- `ensurePostPublished` from the source: a nil filter becomes the empty
filter, and a missing `State` is set to `{Equals: "published"}`. -/
def ensurePostPublished (whereIn : Option PostWhereInput) : PostWhereInput :=
  let w := whereIn.getD {}
  if w.state.isNone then { w with state := some (StringFilter.eqOnly "published") }
  else w

/-- `ensureExternalPublished` from the source. -/
def ensureExternalPublished (whereIn : Option ExternalWhereInput) : ExternalWhereInput :=
  let w := whereIn.getD {}
  if w.state.isNone then { w with state := some (StringFilter.eqOnly "published") }
  else w

/-- The `conds` list built by `QueryPosts` for a (non-nil) filter, in source
order: slug, state, isAdult, isMember, sections, categories. -/
def postsListConds (w : PostWhereInput) : List Cond :=
  buildStringFilter "slug" w.slug
    ++ buildStringFilter "state" w.state
    ++ buildBoolFilter "isAdult" w.isAdult
    ++ buildBoolFilter "isMember" w.isMember
    ++ buildSectionsCond w.sections
    ++ buildCategoriesCond w.categories

/-- The `conds` list built by `QueryPostsCount` (its `buildStringFilter`
handles only `Equals`). -/
def postsCountConds (w : PostWhereInput) : List Cond :=
  buildStringFilterEq "slug" w.slug
    ++ buildStringFilterEq "state" w.state
    ++ buildBoolFilter "isAdult" w.isAdult
    ++ buildBoolFilter "isMember" w.isMember
    ++ buildSectionsCond w.sections
    ++ buildCategoriesCond w.categories

/-- `len(orders) == 0 || orders[0].Field == "publishedDate"` from
`QueryExternals`. -/
def orderUsesPublished (orders : List OrderRule) : Bool :=
  match orders with
  | [] => true
  | r :: _ => r.field == "publishedDate"

/-- The `where.PublishedDate` handling of `QueryExternals`: `Equals` emits an
equality, `Not` with nil `Equals` emits `IS NOT NULL`, `Not` with an `Equals`
emits `<>`. -/
def buildExternalPublishedDate (field : String) : Option DateTimeNullableFilter → List Cond
  | none => []
  | some f =>
    (match f.equals with | some v => [Cond.eqS field v] | none => [])
      ++ (match f.notF with
          | none => []
          | some n =>
            match n.equals with
            | none => [Cond.notNull field]
            | some v => [Cond.neS field v])

/-- The `where.Partner.Slug.Equals` handling of `QueryExternals` /
`QueryExternalsCount`: a `JOIN "Partner" p` plus the `p.slug = $n` condition. -/
def buildPartnerCond : Option PartnerWhereInput → List Cond
  | none => []
  | some p =>
    match p.slug with
    | none => []
    | some sf =>
      match sf.equals with
      | none => []
      | some v => [Cond.eqS "p.slug" v]

/-- The `conds` list built by `QueryExternals` for a (non-nil) filter: the
implicit `e."publishedDate" IS NOT NULL` first (exactly when the effective
order is by `publishedDate`), then slug, state, publishedDate, partner. -/
def externalsListConds (w : ExternalWhereInput) (orders : List OrderRule) : List Cond :=
  (if orderUsesPublished orders then [Cond.notNull "e.\"publishedDate\""] else [])
    ++ buildStringFilterEq "e.slug" w.slug
    ++ buildStringFilterEq "e.state" w.state
    ++ buildExternalPublishedDate "e.\"publishedDate\"" w.publishedDate
    ++ buildPartnerCond w.partner

/-- The `conds` list built by `QueryExternalsCount`: only slug, state and
partner-slug; no publishedDate handling at all. -/
def externalsCountConds (w : ExternalWhereInput) : List Cond :=
  buildStringFilterEq "e.slug" w.slug
    ++ buildStringFilterEq "e.state" w.state
    ++ buildPartnerCond w.partner

/-- The `conds` list built by `QueryTopics` for a (possibly nil) filter:
slug, name, state, type, style (each `Equals` + `In`), isFeatured.
`QueryTopics` applies no `ensure...Published` step, so this is applied to
the caller's filter directly. -/
def topicsListConds (whereIn : Option TopicWhereInput) : List Cond :=
  match whereIn with
  | none => []
  | some w =>
    buildStringFilter "slug" w.slug
      ++ buildStringFilter "name" w.name
      ++ buildStringFilter "state" w.state
      ++ buildStringFilter "type" w.typeF
      ++ buildStringFilter "style" w.style
      ++ buildBoolFilter "isFeatured" w.isFeatured

/-- The `conds` list built by `QueryTopicsCount` (`Equals` only). -/
def topicsCountConds (whereIn : Option TopicWhereInput) : List Cond :=
  match whereIn with
  | none => []
  | some w =>
    buildStringFilterEq "slug" w.slug
      ++ buildStringFilterEq "name" w.name
      ++ buildStringFilterEq "state" w.state
      ++ buildStringFilterEq "type" w.typeF
      ++ buildStringFilterEq "style" w.style
      ++ buildBoolFilter "isFeatured" w.isFeatured

/-- The predicate list `QueryPosts` actually executes: the caller's filter
passes through `ensurePostPublished` first. -/
def postsExecutedConds (whereIn : Option PostWhereInput) : List Cond :=
  postsListConds (ensurePostPublished whereIn)

/-- The predicate list `QueryPostsCount` actually executes. -/
def postsCountExecutedConds (whereIn : Option PostWhereInput) : List Cond :=
  postsCountConds (ensurePostPublished whereIn)

/-- The predicate list `QueryExternals` actually executes. -/
def externalsExecutedConds (whereIn : Option ExternalWhereInput)
    (orders : List OrderRule) : List Cond :=
  externalsListConds (ensureExternalPublished whereIn) orders

/-- The predicate list `QueryExternalsCount` actually executes. -/
def externalsCountExecutedConds (whereIn : Option ExternalWhereInput) : List Cond :=
  externalsCountConds (ensureExternalPublished whereIn)

/-- The predicate list `QueryTopics` actually executes: no published
defaulting step exists for topics in the source. -/
def topicsExecutedConds (whereIn : Option TopicWhereInput) : List Cond :=
  topicsListConds whereIn

/-- The predicate list `QueryTopicsCount` actually executes. -/
def topicsCountExecutedConds (whereIn : Option TopicWhereInput) : List Cond :=
  topicsCountConds whereIn

/-- ASCII uppercase of one character (embedding of Go's `strings.ToUpper`
character mapping on the ASCII range the direction strings use). -/
def asciiUpperChar (c : Char) : Char :=
  if 'a' ≤ c ∧ c ≤ 'z' then Char.ofNat (c.toNat - 32) else c

/-- Embedding of Go's `strings.ToUpper`. -/
def strToUpper (s : String) : String := String.mk (s.data.map asciiUpperChar)

/-- `buildOrderClause` from the source (Post order): uppercase the direction,
fall back to `DESC` when it is neither `ASC` nor `DESC`, then switch on the
field; an unrecognized field yields `"publishedDate" DESC`. -/
def buildOrderClause (rule : OrderRule) : String :=
  let dir := strToUpper rule.direction
  let dir := if dir ≠ "ASC" ∧ dir ≠ "DESC" then "DESC" else dir
  match rule.field with
  | "publishedDate" => "\"publishedDate\" " ++ dir
  | "updatedAt" => "\"updatedAt\" " ++ dir
  | "title" => "\"title\" " ++ dir
  | _ => "\"publishedDate\" DESC"

/-- `buildExternalOrder` from the source. -/
def buildExternalOrder (rule : OrderRule) : String :=
  let dir := strToUpper rule.direction
  let dir := if dir ≠ "ASC" ∧ dir ≠ "DESC" then "DESC" else dir
  match rule.field with
  | "publishedDate" => "e.\"publishedDate\" " ++ dir
  | "updatedAt" => "e.\"updatedAt\" " ++ dir
  | _ => "e.\"publishedDate\" DESC"

/-- `buildTopicOrderClause` from the source: the direction fallback is `ASC`. -/
def buildTopicOrderClause (rule : OrderRule) : String :=
  let dir := strToUpper rule.direction
  let dir := if dir ≠ "ASC" ∧ dir ≠ "DESC" then "ASC" else dir
  match rule.field with
  | "sortOrder" => "\"sortOrder\" " ++ dir ++ " NULLS LAST"
  | "createdAt" => "\"createdAt\" " ++ dir
  | "updatedAt" => "\"updatedAt\" " ++ dir
  | "name" => "name " ++ dir
  | "slug" => "slug " ++ dir
  | _ => "\"sortOrder\" ASC NULLS LAST, \"createdAt\" DESC"

/-- The `ORDER BY` selection of `QueryPosts`: first rule if any, else the
fixed default. -/
def postsOrderBy (orders : List OrderRule) : String :=
  match orders with
  | r :: _ => buildOrderClause r
  | [] => "\"publishedDate\" DESC"

/-- The `ORDER BY` selection of `QueryExternals`. -/
def externalsOrderBy (orders : List OrderRule) : String :=
  match orders with
  | r :: _ => buildExternalOrder r
  | [] => "e.\"publishedDate\" DESC"

/-- The `ORDER BY` selection of `QueryTopics`. -/
def topicsOrderBy (orders : List OrderRule) : String :=
  match orders with
  | r :: _ => buildTopicOrderClause r
  | [] => "\"sortOrder\" ASC NULLS LAST, \"createdAt\" DESC"

/-- The normalized direction used on a recognized field: uppercase, falling
back to the given default when the result is neither `ASC` nor `DESC`. -/
def normDir (defaultDir d : String) : String :=
  let u := strToUpper d
  if u ≠ "ASC" ∧ u ≠ "DESC" then defaultDir else u

/-- The recognized Post order fields and their SQL column names. -/
def postsOrderField : String → Option String
  | "publishedDate" => some "\"publishedDate\""
  | "updatedAt" => some "\"updatedAt\""
  | "title" => some "\"title\""
  | _ => none

/-- The recognized External order fields and their SQL column names. -/
def externalsOrderField : String → Option String
  | "publishedDate" => some "e.\"publishedDate\""
  | "updatedAt" => some "e.\"updatedAt\""
  | _ => none

/-- The recognized Topic order fields and their SQL expressions (`sortOrder`
carries its `NULLS LAST` suffix position; see `buildTopicOrderClause`). -/
def topicsOrderField : String → Option String
  | "sortOrder" => some "\"sortOrder\""
  | "createdAt" => some "\"createdAt\""
  | "updatedAt" => some "\"updatedAt\""
  | "name" => some "name"
  | "slug" => some "slug"
  | _ => none

/-- The `LIMIT` clause: emitted only for `take > 0` (`if take > 0`). -/
def limitClause (take : Int) : String :=
  if take > 0 then s!" LIMIT {take}" else ""

/-- The `OFFSET` clause: emitted only for `skip > 0` (`if skip > 0`). -/
def offsetClause (skip : Int) : String :=
  if skip > 0 then s!" OFFSET {skip}" else ""

/-- SQL semantics of the emitted clauses on an ordered result set: `OFFSET`
drops the first `skip` rows (omitted clause = no offset), then `LIMIT` keeps
at most `take` rows (omitted clause = no limit). -/
def applyPagination (rows : List α) (take skip : Int) : List α :=
  let afterSkip := if skip > 0 then rows.drop skip.toNat else rows
  if take > 0 then afterSkip.take take.toNat else afterSkip

/-- `Resized` from the source: the six derived URL fields. -/
structure Resized where
  original : String
  w480 : String
  w800 : String
  w1200 : String
  w1600 : String
  w2400 : String
deriving DecidableEq

/-- The `makeURL` closure inside `Repo.buildResizedURLs`, with the receiver's
`staticsHost` made an explicit parameter. -/
def makeURL (host fileID size extension : String) : String :=
  if size = "" then s!"{host}/{fileID}.{extension}"
  else s!"{host}/{fileID}-{size}.{extension}"

/-- `Repo.buildResizedURLs` from the source: empty file id yields the empty
`Resized`; empty extension defaults to `jpg`; otherwise each size variant is
`host/fileID-size.ext` and the original is `host/fileID.ext`. -/
def buildResizedURLs (host fileID ext : String) : Resized :=
  if fileID = "" then ⟨"", "", "", "", "", ""⟩
  else
    let ext := if ext = "" then "jpg" else ext
    { original := makeURL host fileID "" ext
      w480 := makeURL host fileID "w480" ext
      w800 := makeURL host fileID "w800" ext
      w1200 := makeURL host fileID "w1200" ext
      w1600 := makeURL host fileID "w1600" ext
      w2400 := makeURL host fileID "w2400" ext }

/-- The URL part of the `Photo` that `Repo.fetchImages` builds for one `Image`
row: `Resized` from the stored extension and `ResizedWebp` always from the
literal extension `"webp"`. -/
structure PhotoURLs where
  resized : Resized
  resizedWebp : Resized
deriving DecidableEq

/-- The per-row photo construction in `Repo.fetchImages`. -/
def fetchImagesPhoto (host fileID ext : String) : PhotoURLs :=
  { resized := buildResizedURLs host fileID ext
    resizedWebp := buildResizedURLs host fileID "webp" }

/-- The outcome (success or failure) of each relation-kind bulk query issued
by `Repo.enrichPosts`, field per fetch call in source order.  The values the
successful queries return are irrelevant to error propagation, so each
outcome is an `Except String Unit`. -/
structure EnrichOutcomes where
  sections : Except String Unit
  categories : Except String Unit
  writers : Except String Unit
  photographers : Except String Unit
  cameraMan : Except String Unit
  designers : Except String Unit
  engineers : Except String Unit
  vocals : Except String Unit
  tags : Except String Unit
  tagsAlgo : Except String Unit
  relateds : Except String Unit
  relatedSingles : Except String Unit
  videos : Except String Unit
  topics : Except String Unit
  images : Except String Unit

/-- The error flow of `Repo.enrichPosts`: `fetchSections`, `fetchCategories`,
`fetchRelatedPosts`, `fetchPostsByIDs` (issued only when some post carries a
`relatedsOne`/`relatedsTwo` id, hence the `singlesNonempty` guard) and
`fetchImages` propagate their error (`if err != nil { return err }`); the six
`fetchContacts` role queries, both `fetchTags` queries, `fetchVideos` and
`fetchTopics` have their error discarded (`roleMapWriters, _ := ...` etc.). -/
def enrichPostsErr (singlesNonempty : Bool) (o : EnrichOutcomes) : Except String Unit := do
  o.sections
  o.categories
  let _roleMaps := (o.writers, o.photographers, o.cameraMan, o.designers,
    o.engineers, o.vocals)
  let _tagMaps := (o.tags, o.tagsAlgo)
  o.relateds
  if singlesNonempty then o.relatedSingles else pure ()
  let _videoTopicMaps := (o.videos, o.topics)
  o.images

/-- The error flow of the relation hydration inside `Repo.QueryExternals`
(lines 1082–1090): both `fetchPartners` and `fetchExternalTags` have their
error discarded, so external hydration never aborts. -/
def externalsEnrichErr (partners tags : Except String Unit) : Except String Unit :=
  let _maps := (partners, tags)
  Except.ok ()

/-- One row of the `"Post"` table as projected by `fetchRelatedPosts` /
`fetchPostsByIDs`: id, slug, title, nullable `heroImage` foreign key. -/
structure PostRow where
  id : Nat
  slug : String
  title : String
  heroImage : Option Nat
deriving DecidableEq

/-- The relational state the related-posts query reads: the
`"_Post_relateds"` join table (rows `(A, B)`) and the `"Post"` table. -/
structure RelDB where
  relateds : List (Nat × Nat)
  posts : List PostRow

/-- The rows produced by the `UNION` query of `Repo.fetchRelatedPosts` for the
id set `postIDs`: the first branch joins `r."A" = ANY(postIDs)` with the post
at `r."B"`, the second branch joins `r."B" = ANY(postIDs)` with the post at
`r."A"`; each row is `(post_id, related post)`.  (`UNION` deduplicates rows;
membership is unaffected, so the branches are simply concatenated here.) -/
def relatedRows (db : RelDB) (postIDs : List Nat) : List (Nat × PostRow) :=
  (db.relateds.filter (fun e => postIDs.contains e.1)).flatMap
      (fun e => (db.posts.filter (fun p => p.id = e.2)).map (fun p => (e.1, p)))
    ++ (db.relateds.filter (fun e => postIDs.contains e.2)).flatMap
      (fun e => (db.posts.filter (fun p => p.id = e.1)).map (fun p => (e.2, p)))

/-- The map `fetchRelatedPosts` builds (`result[pid] = append(result[pid], rp)`),
read back at key `pid`: all related rows attached to `pid`.  `enrichPosts`
assigns exactly this list to `post.Relateds`. -/
def relatedOf (db : RelDB) (postIDs : List Nat) (pid : Nat) : List PostRow :=
  ((relatedRows db postIDs).filter (fun row => row.1 = pid)).map (fun row => row.2)

/-- The single predicate a unique Post lookup executes, mirroring the
`if where.ID != nil { ... } else if where.Slug != nil { ... }` chain of
`Repo.QueryPostByUnique`. -/
inductive PostUniqueCond where
  | byId (v : String)
  | bySlug (v : String)
deriving DecidableEq

/-- Key choice of `Repo.QueryPostByUnique`: id before slug; none present
means no query at all. -/
def postUniqueCond (w : PostWhereUniqueInput) : Option PostUniqueCond :=
  match w.id with
  | some v => some (.byId v)
  | none =>
    match w.slug with
    | some v => some (.bySlug v)
    | none => none

/-- The single predicate a unique Topic lookup executes, mirroring
`Repo.QueryTopicByUnique` (id, then slug, then name). -/
inductive TopicUniqueCond where
  | byId (v : String)
  | bySlug (v : String)
  | byName (v : String)
deriving DecidableEq

/-- Key choice of `Repo.QueryTopicByUnique`: id before slug before name. -/
def topicUniqueCond (w : TopicWhereUniqueInput) : Option TopicUniqueCond :=
  match w.id with
  | some v => some (.byId v)
  | none =>
    match w.slug with
    | some v => some (.bySlug v)
    | none =>
      match w.name with
      | some v => some (.byName v)
      | none => none

/-- A `"Post"` row as a unique lookup matches it (ids are compared as the
strings the caller supplies; Postgres casts the argument). -/
structure PostKeyRow where
  id : String
  slug : String
deriving DecidableEq

def postRowMatches (c : PostUniqueCond) (row : PostKeyRow) : Bool :=
  match c with
  | .byId v => row.id == v
  | .bySlug v => row.slug == v

/-- A `"Topic"` row as a unique lookup matches it. -/
structure TopicKeyRow where
  id : String
  slug : String
  name : String
deriving DecidableEq

def topicRowMatches (c : TopicUniqueCond) (row : TopicKeyRow) : Bool :=
  match c with
  | .byId v => row.id == v
  | .bySlug v => row.slug == v
  | .byName v => row.name == v

/-- The errors `QueryRowContext(...).Scan` can produce: `sql.ErrNoRows` when
the `LIMIT 1` query matches nothing, or a backend failure. -/
inductive SqlErr where
  | noRows
  | backend (msg : String)
deriving DecidableEq

/-- `QueryRowContext` + `Scan` over a table: the first row matching the
predicate, else `sql.ErrNoRows`. -/
def queryRowFirst (rows : List α) (pred : α → Bool) : Except SqlErr α :=
  match (rows.filter pred).head? with
  | some r => .ok r
  | none => .error .noRows

/-- `Repo.QueryPostByUnique` (enrichment aside): nil input or an input with
neither key returns `(nil, nil)` without touching the database (the second
component records whether a query was issued); `sql.ErrNoRows` is mapped to
`(nil, nil)`; any other error propagates. -/
def queryPostByUnique (db : List PostKeyRow) (whereIn : Option PostWhereUniqueInput) :
    Except SqlErr (Option PostKeyRow) × Bool :=
  match whereIn with
  | none => (.ok none, false)
  | some w =>
    match postUniqueCond w with
    | none => (.ok none, false)
    | some c =>
      match queryRowFirst db (postRowMatches c) with
      | .error .noRows => (.ok none, true)
      | .error e => (.error e, true)
      | .ok r => (.ok (some r), true)

/-- `Repo.QueryTopicByUnique` (enrichment aside). -/
def queryTopicByUnique (db : List TopicKeyRow) (whereIn : Option TopicWhereUniqueInput) :
    Except SqlErr (Option TopicKeyRow) × Bool :=
  match whereIn with
  | none => (.ok none, false)
  | some w =>
    match topicUniqueCond w with
    | none => (.ok none, false)
    | some c =>
      match queryRowFirst db (topicRowMatches c) with
      | .error .noRows => (.ok none, true)
      | .error e => (.error e, true)
      | .ok r => (.ok (some r), true)

/-- Outcome of one `Cache.Get` call as the call sites observe it. -/
inductive CacheReadResult (α : Type) where
  | hit (v : α)
  | miss
  | err (msg : String)
deriving DecidableEq

/-- Outcome of one `Cache.Set` call. -/
inductive CacheWriteResult where
  | ok
  | err (msg : String)
deriving DecidableEq

/-- Modelled from the spec: the `Cache` type (`Enabled`/`Get`/`Set`) is not
part of src/ — only its call sites in `Repo` are.  Per the spec's Cache Layer
contract (`get(key) -> (found: bool, value)`, fallible but non-fatal, errors
treated as a miss), the `found` flag consulted by
`if found, _ := r.cache.Get(...); found { ... }` is true exactly on a hit, so
both a miss and a read error yield no value. -/
def cacheGetFound : CacheReadResult α → Option α
  | .hit v => some v
  | .miss => none
  | .err _ => none

/-- The behavior of the cache backend during one query call. -/
structure CacheBehavior (α : Type) where
  enabled : Bool
  read : CacheReadResult α
  write : CacheWriteResult

/-- The read-through cache flow shared by `Repo.QueryPosts` and its siblings
(source lines 563–574 and 751–760): with a non-nil, enabled cache, a found
value is returned directly; otherwise the database result is computed and, on
success, the cache write is attempted with its error discarded
(`_ = r.cache.Set(...)`). -/
def queryWithCache (cache : Option (CacheBehavior α)) (dbResult : Except String α) :
    Except String α :=
  match cache with
  | some c =>
    if c.enabled then
      match cacheGetFound c.read with
      | some v => .ok v
      | none =>
        match dbResult with
        | .error e => .error e
        | .ok value =>
          let _writeOutcome := c.write
          .ok value
    else
      dbResult
  | none => dbResult

/-- One `"External"` row restricted to the columns the External predicates
touch (`publishedDate` is nullable). -/
structure ExternalRow where
  slug : String
  state : String
  partnerSlug : String
  publishedDate : Option String
deriving DecidableEq

/-- SQL evaluation of the predicate fragments the External queries emit,
against one row: equality on the known columns, `IS NOT NULL` on
`publishedDate` (a SQL `NULL <> v` comparison is not true, hence `false` for
a null date). -/
def evalExternalCond (row : ExternalRow) : Cond → Bool
  | .eqS f v =>
    if f = "e.slug" then row.slug == v
    else if f = "e.state" then row.state == v
    else if f = "p.slug" then row.partnerSlug == v
    else if f = "e.\"publishedDate\"" then row.publishedDate == some v
    else true
  | .neS f v =>
    if f = "e.\"publishedDate\"" then
      match row.publishedDate with
      | some d => d != v
      | none => false
    else true
  | .notNull f => if f = "e.\"publishedDate\"" then row.publishedDate.isSome else true
  | _ => true

/-- A published external row whose publish timestamp is NULL: counted by
`QueryExternalsCount` yet excluded by the default-ordered `QueryExternals`. -/
def nullDateRow : ExternalRow :=
  { slug := "x", state := "published", partnerSlug := "p", publishedDate := none }

end GoStory

namespace GoStory

/-! ## Helper lemmas -/

theorem notNull_not_mem_buildStringFilterEq (x f : String) (o : Option StringFilter) :
    Cond.notNull x ∉ buildStringFilterEq f o := by
  cases o with
  | none => simp [buildStringFilterEq]
  | some sf => cases h : sf.equals <;> simp [buildStringFilterEq, h]

theorem notNull_not_mem_buildPartnerCond (x : String) (o : Option PartnerWhereInput) :
    Cond.notNull x ∉ buildPartnerCond o := by
  cases o with
  | none => simp [buildPartnerCond]
  | some p =>
    cases hs : p.slug with
    | none => simp [buildPartnerCond, hs]
    | some sf => cases h : sf.equals <;> simp [buildPartnerCond, hs, h]

theorem mem_buildStringFilterEq (c : Cond) (f : String) (o : Option StringFilter)
    (h : c ∈ buildStringFilterEq f o) : ∃ v, c = Cond.eqS f v := by
  cases o with
  | none => simp [buildStringFilterEq] at h
  | some sf =>
    cases he : sf.equals with
    | none => simp [buildStringFilterEq, he] at h
    | some v => simp [buildStringFilterEq, he] at h; exact ⟨v, h⟩

theorem mem_buildPartnerCond (c : Cond) (o : Option PartnerWhereInput)
    (h : c ∈ buildPartnerCond o) : ∃ v, c = Cond.eqS "p.slug" v := by
  cases o with
  | none => simp [buildPartnerCond] at h
  | some p =>
    cases hs : p.slug with
    | none => simp [buildPartnerCond, hs] at h
    | some sf =>
      cases he : sf.equals with
      | none => simp [buildPartnerCond, hs, he] at h
      | some v => simp [buildPartnerCond, hs, he] at h; exact ⟨v, h⟩

theorem ensureExternalPublished_projections (w : Option ExternalWhereInput) :
    (ensureExternalPublished w).slug = (w.getD {}).slug
    ∧ (ensureExternalPublished w).partner = (w.getD {}).partner
    ∧ (ensureExternalPublished w).publishedDate = (w.getD {}).publishedDate := by
  by_cases h : (w.getD {}).state.isNone <;> simp [ensureExternalPublished, h]

/-! ## Claim theorems -/

/-- C10: derived media URL construction is a pure function of file id,
extension and static host (it reads no other state, being a plain function):
an empty file id yields the all-empty `Resized`; an empty extension defaults
to `"jpg"`; and `fetchImages` always computes the webp variant set with the
literal extension `"webp"`, whatever the stored extension. -/
theorem resized_urls_pure (host fid ext : String) :
    buildResizedURLs host "" ext = ⟨"", "", "", "", "", ""⟩
    ∧ buildResizedURLs host fid "" = buildResizedURLs host fid "jpg"
    ∧ (fetchImagesPhoto host fid ext).resizedWebp = buildResizedURLs host fid "webp" := by
  refine ⟨by simp [buildResizedURLs], ?_, rfl⟩
  by_cases h : fid = "" <;> simp [buildResizedURLs, h]

/-- C8: a non-positive take omits the LIMIT clause and a non-positive skip
omits the OFFSET clause; under the SQL semantics of the emitted clauses the
returned page has at most `take` items when `take > 0` and is empty when
`skip` is at least the result-set size. -/
theorem pagination_bounds {α : Type} (rows : List α) (take skip : Int) :
    (take ≤ 0 → limitClause take = "")
    ∧ (skip ≤ 0 → offsetClause skip = "")
    ∧ (take > 0 → (applyPagination rows take skip).length ≤ take.toNat)
    ∧ ((rows.length : Int) ≤ skip → applyPagination rows take skip = []) := by
  refine ⟨fun h => ?_, fun h => ?_, fun h => ?_, fun h => ?_⟩
  · simp [limitClause]; omega
  · simp [offsetClause]; omega
  · by_cases hs : skip > 0 <;>
      simp [applyPagination, h, hs, List.length_take]
  · by_cases hs : skip > 0
    · have hdrop : rows.drop skip.toNat = [] :=
        List.drop_eq_nil_of_le (by omega)
      simp [applyPagination, hs, hdrop]
    · have hnil : rows = [] := by
        have : rows.length = 0 := by omega
        exact List.eq_nil_of_length_eq_zero this
      simp [applyPagination, hs, hnil]

/-- C3 counterexample: an order rule with a recognized field and an invalid
direction does NOT yield the entity's fixed default order — the recognized
field is kept and only the direction falls back (`DESC` for Posts, `ASC` for
Topics). -/
theorem order_invalid_direction_keeps_field :
    buildOrderClause ⟨"title", "sideways"⟩ = "\"title\" DESC"
    ∧ buildOrderClause ⟨"title", "sideways"⟩ ≠ "\"publishedDate\" DESC"
    ∧ buildTopicOrderClause ⟨"name", "bogus"⟩ = "name ASC"
    ∧ buildTopicOrderClause ⟨"name", "bogus"⟩
        ≠ "\"sortOrder\" ASC NULLS LAST, \"createdAt\" DESC" := by
  refine ⟨rfl, by decide, rfl, by decide⟩

/-- C3 (amended): the direction is normalized case-insensitively; an
unrecognized direction falls back to a per-entity default direction applied
to the recognized field (not to the default order); an unrecognized field —
and an absent order list — yields the entity's fixed default order. -/
theorem order_clause_normalization (rule : OrderRule) :
    (postsOrderField rule.field = none → buildOrderClause rule = "\"publishedDate\" DESC")
    ∧ (rule.field = "publishedDate" →
        buildOrderClause rule = "\"publishedDate\" " ++ normDir "DESC" rule.direction)
    ∧ (rule.field = "updatedAt" →
        buildOrderClause rule = "\"updatedAt\" " ++ normDir "DESC" rule.direction)
    ∧ (rule.field = "title" →
        buildOrderClause rule = "\"title\" " ++ normDir "DESC" rule.direction)
    ∧ (externalsOrderField rule.field = none →
        buildExternalOrder rule = "e.\"publishedDate\" DESC")
    ∧ (rule.field = "publishedDate" →
        buildExternalOrder rule = "e.\"publishedDate\" " ++ normDir "DESC" rule.direction)
    ∧ (rule.field = "updatedAt" →
        buildExternalOrder rule = "e.\"updatedAt\" " ++ normDir "DESC" rule.direction)
    ∧ (topicsOrderField rule.field = none →
        buildTopicOrderClause rule = "\"sortOrder\" ASC NULLS LAST, \"createdAt\" DESC")
    ∧ (rule.field = "sortOrder" →
        buildTopicOrderClause rule = "\"sortOrder\" " ++ normDir "ASC" rule.direction ++ " NULLS LAST")
    ∧ (rule.field = "createdAt" →
        buildTopicOrderClause rule = "\"createdAt\" " ++ normDir "ASC" rule.direction)
    ∧ (rule.field = "updatedAt" →
        buildTopicOrderClause rule = "\"updatedAt\" " ++ normDir "ASC" rule.direction)
    ∧ (rule.field = "name" →
        buildTopicOrderClause rule = "name " ++ normDir "ASC" rule.direction)
    ∧ (rule.field = "slug" →
        buildTopicOrderClause rule = "slug " ++ normDir "ASC" rule.direction)
    ∧ postsOrderBy [] = "\"publishedDate\" DESC"
    ∧ externalsOrderBy [] = "e.\"publishedDate\" DESC"
    ∧ topicsOrderBy [] = "\"sortOrder\" ASC NULLS LAST, \"createdAt\" DESC" := by
  obtain ⟨f, d⟩ := rule
  refine ⟨?_, ?_, ?_, ?_, ?_, ?_, ?_, ?_, ?_, ?_, ?_, ?_, ?_, rfl, rfl, rfl⟩
  · intro h
    simp only [buildOrderClause]
    split
    · simp [postsOrderField] at h
    · simp [postsOrderField] at h
    · simp [postsOrderField] at h
    · rfl
  all_goals intro h
  · subst h; rfl
  · subst h; rfl
  · subst h; rfl
  · simp only [buildExternalOrder]
    split
    · simp [externalsOrderField] at h
    · simp [externalsOrderField] at h
    · rfl
  · subst h; rfl
  · subst h; rfl
  · simp only [buildTopicOrderClause]
    split
    · simp [topicsOrderField] at h
    · simp [topicsOrderField] at h
    · simp [topicsOrderField] at h
    · simp [topicsOrderField] at h
    · simp [topicsOrderField] at h
    · rfl
  · subst h; rfl
  · subst h; rfl
  · subst h; rfl
  · subst h; rfl
  · subst h; rfl

/-- Witness for the amended C3 theorem at concrete rules. -/
theorem order_clause_normalization_witness :
    buildOrderClause ⟨"updatedAt", "asc"⟩ = "\"updatedAt\" " ++ normDir "DESC" "asc"
    ∧ buildOrderClause ⟨"unknownField", "asc"⟩ = "\"publishedDate\" DESC"
    ∧ buildTopicOrderClause ⟨"sortOrder", "DeSc"⟩
        = "\"sortOrder\" " ++ normDir "ASC" "DeSc" ++ " NULLS LAST" :=
  ⟨(order_clause_normalization ⟨"updatedAt", "asc"⟩).2.2.1 rfl,
   (order_clause_normalization ⟨"unknownField", "asc"⟩).1 rfl,
   (order_clause_normalization ⟨"sortOrder", "DeSc"⟩).2.2.2.2.2.2.2.2.1 rfl⟩

/-- Witness for the pagination theorem at a concrete page. -/
theorem pagination_bounds_witness :
    limitClause (-1) = ""
    ∧ offsetClause 0 = ""
    ∧ (applyPagination [10, 20, 30] 2 1).length ≤ (2 : Int).toNat
    ∧ applyPagination [10, 20, 30] 2 5 = ([] : List Nat) :=
  ⟨(pagination_bounds ([] : List Nat) (-1) 0).1 (by decide),
   (pagination_bounds ([] : List Nat) (-1) 0).2.1 (by decide),
   (pagination_bounds [10, 20, 30] 2 1).2.2.1 (by decide),
   (pagination_bounds [10, 20, 30] 2 5).2.2.2 (by decide)⟩

/-- The concrete batch-hydration outcome refuting C2: every relation-kind
query succeeds except the writers contributor query. -/
def writersFailOutcome : EnrichOutcomes :=
  { sections := .ok (), categories := .ok (), writers := .error "db down"
    photographers := .ok (), cameraMan := .ok (), designers := .ok ()
    engineers := .ok (), vocals := .ok (), tags := .ok (), tagsAlgo := .ok ()
    relateds := .ok (), relatedSingles := .ok (), videos := .ok ()
    topics := .ok (), images := .ok () }

/-- C2 counterexample: a failing writers (contributor-role) bulk query does
NOT abort the enrichment — `enrichPosts` discards that error and returns
success, leaving the relation missing, contrary to the claim that any
relation-kind failure aborts the whole batch. -/
theorem enrich_writers_error_not_aborting :
    writersFailOutcome.writers = Except.error "db down"
    ∧ enrichPostsErr false writersFailOutcome = Except.ok ()
    ∧ enrichPostsErr true writersFailOutcome = Except.ok () :=
  ⟨rfl, rfl, rfl⟩

/-- C2 (amended): hydration aborts exactly when one of the sections,
categories, related-posts, singular-related-posts (only when that query is
issued) or images bulk queries fails; errors of the six contributor-role
queries, the two tag queries, the videos query and the topics query are
discarded, and the External hydration (partners, tags) never aborts at
all. -/
theorem enrich_abort_exactly_critical_kinds (s : Bool) (o : EnrichOutcomes) :
    ((enrichPostsErr s o).isOk =
      (o.sections.isOk && o.categories.isOk && o.relateds.isOk
        && (!s || o.relatedSingles.isOk) && o.images.isOk))
    ∧ (∀ e, o.sections = Except.error e → enrichPostsErr s o = Except.error e)
    ∧ (∀ p t : Except String Unit, externalsEnrichErr p t = Except.ok ()) := by
  obtain ⟨sec, cat, wr, ph, cm, de, en, vo, tg, ta, rel, rs, vi, tp, im⟩ := o
  refine ⟨?_, ?_, fun p t => rfl⟩
  · cases sec <;> cases cat <;> cases rel <;> cases rs <;> cases im <;> cases s <;>
      simp [enrichPostsErr, Except.isOk, Except.toBool, bind, Except.bind,
        pure, Except.pure]
  · intro e he
    cases he
    cases s <;> rfl

/-- Witness for the amended C2 theorem: a failing sections query aborts the
enrichment with that very error. -/
theorem enrich_abort_exactly_critical_kinds_witness :
    enrichPostsErr false { writersFailOutcome with sections := .error "sections down" }
      = Except.error "sections down" :=
  (enrich_abort_exactly_critical_kinds false
    { writersFailOutcome with sections := .error "sections down" }).2.1
    "sections down" rfl

/-- C1 counterexample: a Topic list (and count) query whose caller filter
omits `state` executes with NO conditions at all — in particular without
`state = published` — because `QueryTopics`/`QueryTopicsCount` never apply a
published-defaulting step. -/
theorem topics_query_omits_published_default :
    topicsExecutedConds (some {}) = []
    ∧ Cond.eqS "state" "published" ∉ topicsExecutedConds (some {})
    ∧ topicsCountExecutedConds (some {}) = []
    ∧ Cond.eqS "state" "published" ∉ topicsCountExecutedConds (some {}) := by
  refine ⟨rfl, by decide, rfl, by decide⟩

/-- C1 (amended): for Article (Post) and ExternalItem (External) list and
count queries, a caller filter without a `state` field gets the implicit
`state = published` predicate, and a caller-supplied `state` filter is used
unchanged (no default injected); Topic queries get no such default (see the
counterexample). -/
theorem published_default_posts_externals :
    (∀ pw : PostWhereInput, pw.state = none →
      Cond.eqS "state" "published" ∈ postsExecutedConds (some pw)
      ∧ Cond.eqS "state" "published" ∈ postsCountExecutedConds (some pw))
    ∧ (Cond.eqS "state" "published" ∈ postsExecutedConds none
      ∧ Cond.eqS "state" "published" ∈ postsCountExecutedConds none)
    ∧ (∀ (pw : PostWhereInput) (sf : StringFilter), pw.state = some sf →
        ensurePostPublished (some pw) = pw)
    ∧ (∀ (ew : ExternalWhereInput) (orders : List OrderRule), ew.state = none →
      Cond.eqS "e.state" "published" ∈ externalsExecutedConds (some ew) orders
      ∧ Cond.eqS "e.state" "published" ∈ externalsCountExecutedConds (some ew))
    ∧ (∀ orders : List OrderRule,
        Cond.eqS "e.state" "published" ∈ externalsExecutedConds none orders
      ∧ Cond.eqS "e.state" "published" ∈ externalsCountExecutedConds none)
    ∧ (∀ (ew : ExternalWhereInput) (sf : StringFilter), ew.state = some sf →
        ensureExternalPublished (some ew) = ew) := by
  refine ⟨fun pw h => ⟨?_, ?_⟩, ⟨?_, ?_⟩, fun pw sf h => ?_,
    fun ew orders h => ⟨?_, ?_⟩, fun orders => ⟨?_, ?_⟩, fun ew sf h => ?_⟩
  · simp [postsExecutedConds, postsListConds, ensurePostPublished, h,
      buildStringFilter, StringFilter.eqOnly, StringFilter.equals, StringFilter.inList]
  · simp [postsCountExecutedConds, postsCountConds, ensurePostPublished, h,
      buildStringFilterEq, StringFilter.eqOnly, StringFilter.equals]
  · simp [postsExecutedConds, postsListConds, ensurePostPublished,
      buildStringFilter, StringFilter.eqOnly, StringFilter.equals, StringFilter.inList,
      buildBoolFilter, buildSectionsCond, buildCategoriesCond]
  · simp [postsCountExecutedConds, postsCountConds, ensurePostPublished,
      buildStringFilterEq, StringFilter.eqOnly, StringFilter.equals,
      buildBoolFilter, buildSectionsCond, buildCategoriesCond]
  · simp [ensurePostPublished, h]
  · simp [externalsExecutedConds, externalsListConds, ensureExternalPublished, h,
      buildStringFilterEq, StringFilter.eqOnly, StringFilter.equals]
  · simp [externalsCountExecutedConds, externalsCountConds, ensureExternalPublished, h,
      buildStringFilterEq, StringFilter.eqOnly, StringFilter.equals]
  · simp [externalsExecutedConds, externalsListConds, ensureExternalPublished,
      buildStringFilterEq, StringFilter.eqOnly, StringFilter.equals,
      buildExternalPublishedDate, buildPartnerCond]
  · simp [externalsCountExecutedConds, externalsCountConds, ensureExternalPublished,
      buildStringFilterEq, StringFilter.eqOnly, StringFilter.equals, buildPartnerCond]
  · simp [ensureExternalPublished, h]

/-- Witness for the amended C1 theorem at concrete filters. -/
theorem published_default_posts_externals_witness :
    Cond.eqS "state" "published" ∈ postsExecutedConds (some {})
    ∧ Cond.eqS "e.state" "published" ∈ externalsExecutedConds (some {}) []
    ∧ ensurePostPublished (some { state := some (StringFilter.eqOnly "draft") })
        = { state := some (StringFilter.eqOnly "draft") } :=
  ⟨(published_default_posts_externals.1 {} rfl).1,
   (published_default_posts_externals.2.2.2.1 {} [] rfl).1,
   published_default_posts_externals.2.2.1 _ (StringFilter.eqOnly "draft") rfl⟩

/-- C5: the implicit `e."publishedDate" IS NOT NULL` predicate appears in an
External listing exactly when the effective ordering is by publish timestamp
(no order rule, or a first rule naming `publishedDate`), assuming the caller
supplies no explicit `publishedDate` filter of their own. -/
theorem externals_null_published_exclusion :
    (∀ (ew : ExternalWhereInput) (orders : List OrderRule), ew.publishedDate = none →
      (Cond.notNull "e.\"publishedDate\"" ∈ externalsExecutedConds (some ew) orders
        ↔ orderUsesPublished orders = true))
    ∧ (∀ orders : List OrderRule,
      (Cond.notNull "e.\"publishedDate\"" ∈ externalsExecutedConds none orders
        ↔ orderUsesPublished orders = true)) := by
  constructor
  · intro ew orders hpd
    obtain ⟨hslug, hpartner, hpub⟩ := ensureExternalPublished_projections (some ew)
    simp only [Option.getD_some] at hpub
    rw [hpd] at hpub
    simp only [externalsExecutedConds, externalsListConds, List.mem_append, hpub,
      buildExternalPublishedDate, List.not_mem_nil, or_false]
    simp only [notNull_not_mem_buildStringFilterEq, notNull_not_mem_buildPartnerCond,
      or_false]
    cases h : orderUsesPublished orders <;> simp [h]
  · intro orders
    simp only [externalsExecutedConds, externalsListConds, ensureExternalPublished,
      List.mem_append, buildExternalPublishedDate, List.not_mem_nil, or_false]
    simp only [notNull_not_mem_buildStringFilterEq, notNull_not_mem_buildPartnerCond,
      or_false]
    cases h : orderUsesPublished orders <;> simp [h]

/-- Witness for the C5 theorem at a concrete filter and order. -/
theorem externals_null_published_exclusion_witness :
    Cond.notNull "e.\"publishedDate\"" ∈ externalsExecutedConds (some {}) []
    ∧ Cond.notNull "e.\"publishedDate\""
        ∉ externalsExecutedConds (some {}) [⟨"updatedAt", "desc"⟩] :=
  ⟨(externals_null_published_exclusion.1 {} [] rfl).mpr rfl,
   fun hmem => absurd
     ((externals_null_published_exclusion.1 {} [⟨"updatedAt", "desc"⟩] rfl).mp hmem)
     (by decide)⟩

/-- C9: the External count query never includes the null-publish-timestamp
exclusion — every predicate it executes is an equality on `e.slug`,
`e.state` or `p.slug` — so a row with a NULL publish timestamp (and state
published) satisfies the default count predicate while the default-ordered
listing predicate rejects it. -/
theorem externals_count_no_null_exclusion (w : Option ExternalWhereInput) :
    Cond.notNull "e.\"publishedDate\"" ∉ externalsCountExecutedConds w
    ∧ (∀ c ∈ externalsCountExecutedConds w, ∃ v,
        c = Cond.eqS "e.slug" v ∨ c = Cond.eqS "e.state" v ∨ c = Cond.eqS "p.slug" v)
    ∧ (externalsCountExecutedConds none).all (evalExternalCond nullDateRow) = true
    ∧ (externalsExecutedConds none []).all (evalExternalCond nullDateRow) = false := by
  refine ⟨?_, fun c hc => ?_, by decide, by decide⟩
  · simp only [externalsCountExecutedConds, externalsCountConds, List.mem_append]
    simp [notNull_not_mem_buildStringFilterEq, notNull_not_mem_buildPartnerCond]
  · simp only [externalsCountExecutedConds, externalsCountConds, List.mem_append] at hc
    rcases hc with (hc | hc) | hc
    · obtain ⟨v, hv⟩ := mem_buildStringFilterEq c "e.slug" _ hc
      exact ⟨v, Or.inl hv⟩
    · obtain ⟨v, hv⟩ := mem_buildStringFilterEq c "e.state" _ hc
      exact ⟨v, Or.inr (Or.inl hv)⟩
    · obtain ⟨v, hv⟩ := mem_buildPartnerCond c _ hc
      exact ⟨v, Or.inr (Or.inr hv)⟩

/-- Witness for the C9 theorem at a concrete filter and condition. -/
theorem externals_count_no_null_exclusion_witness :
    ∃ v, Cond.eqS "e.state" "published" = Cond.eqS "e.slug" v
      ∨ Cond.eqS "e.state" "published" = Cond.eqS "e.state" v
      ∨ Cond.eqS "e.state" "published" = Cond.eqS "p.slug" v :=
  (externals_count_no_null_exclusion (some {})).2.1
    (Cond.eqS "e.state" "published") (by decide)

/-- C4: the related-articles `UNION` query is symmetric in the join-table
edge: for an edge `(A, B)` (in either column order) with both endpoint rows
present in the `Post` table, hydrating a batch containing A attaches B's row
to A, and hydrating a batch containing B attaches A's row to B. -/
theorem related_edge_symmetric (db : RelDB) (A B : Nat) (rowA rowB : PostRow)
    (idsA idsB : List Nat)
    (hEdge : (A, B) ∈ db.relateds)
    (hRowA : rowA ∈ db.posts) (hidA : rowA.id = A)
    (hRowB : rowB ∈ db.posts) (hidB : rowB.id = B) :
    (A ∈ idsA → rowB ∈ relatedOf db idsA A)
    ∧ (B ∈ idsB → rowA ∈ relatedOf db idsB B) := by
  constructor
  · intro hA
    simp only [relatedOf, List.mem_map, List.mem_filter]
    refine ⟨(A, rowB), ⟨?_, by simp⟩, rfl⟩
    simp only [relatedRows, List.mem_append, List.mem_flatMap, List.mem_filter,
      List.mem_map]
    exact Or.inl ⟨(A, B), ⟨hEdge, by simpa using hA⟩, rowB, ⟨hRowB, by simpa using hidB⟩, rfl⟩
  · intro hB
    simp only [relatedOf, List.mem_map, List.mem_filter]
    refine ⟨(B, rowA), ⟨?_, by simp⟩, rfl⟩
    simp only [relatedRows, List.mem_append, List.mem_flatMap, List.mem_filter,
      List.mem_map]
    exact Or.inr ⟨(A, B), ⟨hEdge, by simpa using hB⟩, rowA, ⟨hRowA, by simpa using hidA⟩, rfl⟩

/-- Witness for the C4 theorem on a concrete two-post database. -/
theorem related_edge_symmetric_witness :
    ({ id := 2, slug := "b", title := "B", heroImage := none } : PostRow)
        ∈ relatedOf ⟨[(1, 2)], [⟨1, "a", "A", none⟩, ⟨2, "b", "B", none⟩]⟩ [1] 1
    ∧ ({ id := 1, slug := "a", title := "A", heroImage := none } : PostRow)
        ∈ relatedOf ⟨[(1, 2)], [⟨1, "a", "A", none⟩, ⟨2, "b", "B", none⟩]⟩ [2] 2 :=
  ⟨(related_edge_symmetric ⟨[(1, 2)], [⟨1, "a", "A", none⟩, ⟨2, "b", "B", none⟩]⟩
      1 2 ⟨1, "a", "A", none⟩ ⟨2, "b", "B", none⟩ [1] [2]
      (by decide) (by decide) rfl (by decide) rfl).1 (by decide),
   (related_edge_symmetric ⟨[(1, 2)], [⟨1, "a", "A", none⟩, ⟨2, "b", "B", none⟩]⟩
      1 2 ⟨1, "a", "A", none⟩ ⟨2, "b", "B", none⟩ [1] [2]
      (by decide) (by decide) rfl (by decide) rfl).2 (by decide)⟩

/-- C6: unique-key lookups of Posts and Topics map zero matching rows to an
explicit absent value and no error; with several key fields present the
executed predicate follows the fixed precedence id, then slug, then name
(Topics only); and an input with no key field resolves to absent without
issuing a query (second component `false`). -/
theorem unique_lookup_not_found_and_precedence :
    (∀ (db : List PostKeyRow) (w : PostWhereUniqueInput) (c : PostUniqueCond),
      postUniqueCond w = some c → db.filter (postRowMatches c) = [] →
      queryPostByUnique db (some w) = (.ok none, true))
    ∧ (∀ (v : String) (s : Option String),
        postUniqueCond ⟨some v, s⟩ = some (.byId v))
    ∧ (∀ v : String, postUniqueCond ⟨none, some v⟩ = some (.bySlug v))
    ∧ (∀ db : List PostKeyRow,
        queryPostByUnique db (some ⟨none, none⟩) = (.ok none, false)
        ∧ queryPostByUnique db none = (.ok none, false))
    ∧ (∀ (db : List TopicKeyRow) (w : TopicWhereUniqueInput) (c : TopicUniqueCond),
      topicUniqueCond w = some c → db.filter (topicRowMatches c) = [] →
      queryTopicByUnique db (some w) = (.ok none, true))
    ∧ (∀ (v : String) (n s : Option String),
        topicUniqueCond ⟨some v, n, s⟩ = some (.byId v))
    ∧ (∀ (v : String) (n : Option String),
        topicUniqueCond ⟨none, n, some v⟩ = some (.bySlug v))
    ∧ (∀ v : String, topicUniqueCond ⟨none, some v, none⟩ = some (.byName v))
    ∧ (∀ db : List TopicKeyRow,
        queryTopicByUnique db (some ⟨none, none, none⟩) = (.ok none, false)
        ∧ queryTopicByUnique db none = (.ok none, false)) := by
  refine ⟨fun db w c hc hf => ?_, fun v s => rfl, fun v => rfl,
    fun db => ⟨rfl, rfl⟩, fun db w c hc hf => ?_, fun v n s => rfl,
    fun v n => rfl, fun v => rfl, fun db => ⟨rfl, rfl⟩⟩
  · simp [queryPostByUnique, hc, queryRowFirst, hf]
  · simp [queryTopicByUnique, hc, queryRowFirst, hf]

/-- Witness for the C6 theorem: a slug lookup over a database without that
slug resolves to absent, issuing a query and no error. -/
theorem unique_lookup_not_found_witness :
    queryPostByUnique [⟨"1", "hello"⟩] (some ⟨none, some "does-not-exist"⟩)
      = (.ok none, true)
    ∧ queryTopicByUnique [⟨"1", "t", "Topic"⟩] (some ⟨some "9", none, none⟩)
      = (.ok none, true) :=
  ⟨unique_lookup_not_found_and_precedence.1 [⟨"1", "hello"⟩]
      ⟨none, some "does-not-exist"⟩ (.bySlug "does-not-exist") rfl (by decide),
   unique_lookup_not_found_and_precedence.2.2.2.2.1 [⟨"1", "t", "Topic"⟩]
      ⟨some "9", none, none⟩ (.byId "9") rfl (by decide)⟩

/-- C7: with caching enabled, a cache read error behaves exactly like a
cache miss (the database result is returned), a cache write outcome never
influences the returned value, and any error the operation returns is the
database's own — cache failures never surface.  (The `Cache` backend itself
is modelled from the spec; only its call sites are in src/.) -/
theorem cache_errors_never_surface {α : Type} (c : CacheBehavior α)
    (db : Except String α) (m : String) :
    (c.read = .err m → queryWithCache (some c) db = queryWithCache none db)
    ∧ (c.read = .miss → queryWithCache (some c) db = queryWithCache none db)
    ∧ (queryWithCache (some { c with write := .err m }) db
        = queryWithCache (some { c with write := .ok }) db)
    ∧ (∀ e, queryWithCache (some c) db = .error e → db = .error e) := by
  refine ⟨fun h => ?_, fun h => ?_, ?_, fun e h => ?_⟩
  · cases he : c.enabled <;> cases db <;>
      simp [queryWithCache, cacheGetFound, h, he]
  · cases he : c.enabled <;> cases db <;>
      simp [queryWithCache, cacheGetFound, h, he]
  · cases he : c.enabled <;> cases hr : c.read <;> cases db <;>
      simp [queryWithCache, cacheGetFound, he, hr]
  · cases he : c.enabled <;> cases hr : c.read <;> cases db <;>
      simp_all [queryWithCache, cacheGetFound]

/-- Witness for the C7 theorem: an enabled cache whose read and write both
fail still returns the database result unchanged. -/
theorem cache_errors_never_surface_witness :
    queryWithCache (some ⟨true, CacheReadResult.err "redis down", .err "redis down"⟩)
      (Except.ok [1, 2, 3]) = queryWithCache none (Except.ok [1, 2, 3]) :=
  (cache_errors_never_surface
    ⟨true, CacheReadResult.err "redis down", .err "redis down"⟩
    (Except.ok [1, 2, 3]) "redis down").1 rfl

end GoStory
